import Mathlib

/-!
Shallow embedding of the WebWatch monitoring engine
(`src/ai/flows/monitorWebsites.ts`, `src/lib/firestore.ts`, `src/lib/types.ts`).

Timestamps are modelled as milliseconds since epoch (`Nat`).  The external
collaborators (network fetch, the HTML parser from `node-html-parser`, and the
two AI judgment prompts) are modelled as explicit oracle parameters; the
side effects of one processing run (fetch attempts, judgment-prompt calls,
Telegram sends, Firestore partial updates) are recorded as an event trace in
the order the source awaits them.
-/

/-- `status: 'active' | 'inactive' | 'error'` from `src/lib/types.ts`. -/
inductive WStatus where
  | active
  | inactive
  | error
  deriving DecidableEq, Repr

/-- The `Website` record of `src/lib/types.ts` (plus `lastChangeSummary`,
which `monitorWebsites.ts` writes through the partial update payloads). -/
structure Website where
  id : String
  url : String
  label : String
  checkInterval : Nat
  lastChecked : Nat
  status : WStatus
  lastContent : String
  lastUpdated : Nat
  selector : Option String
  lastChangeSummary : Option String
  deriving DecidableEq, Repr

/-- `TelegramSettings` from `src/lib/types.ts`. -/
structure TelegramSettings where
  botToken : String
  chatId : String
  deriving DecidableEq, Repr

/-- A `Partial<Website>` update payload as passed to `updateWebsite`:
`none` means the field is absent from the payload and keeps its stored value. -/
structure WebsiteUpdate where
  lastContent : Option String := none
  lastChecked : Option Nat := none
  status : Option WStatus := none
  lastUpdated : Option Nat := none
  lastChangeSummary : Option String := none
  deriving DecidableEq, Repr

/-- `updateWebsite` (`src/lib/firestore.ts`) performs a Firestore
`updateDoc`, a field-wise merge: absent payload fields are untouched. -/
def applyUpdate (w : Website) (u : WebsiteUpdate) : Website :=
  { w with
    lastContent := u.lastContent.getD w.lastContent
    lastChecked := u.lastChecked.getD w.lastChecked
    status := u.status.getD w.status
    lastUpdated := u.lastUpdated.getD w.lastUpdated
    lastChangeSummary :=
      match u.lastChangeSummary with
      | some s => some s
      | none => w.lastChangeSummary }

/-- Output schema of `initialNoticePrompt` (`InitialNoticeSchema`); the
`summary` field is optional. -/
structure InitialNoticeOutput where
  noticeFound : Bool
  summary : Option String
  deriving DecidableEq, Repr

/-- Output schema of `changeDetectionPrompt` (`ChangeDetectionSchema`). -/
structure ChangeDetectionOutput where
  changeDetected : Bool
  summary : Option String
  deriving DecidableEq, Repr

/-- JavaScript truthiness of an optional string: `undefined` and the empty
string are falsy (`output.summary` is used as a boolean guard in the source). -/
def strTruthy : Option String → Bool
  | none => false
  | some s => !s.isEmpty

/-- `s.substring(0, n)`: the first `n` characters of `s`. -/
def strTake (s : String) (n : Nat) : String := String.mk (s.data.take n)

/-- JavaScript string interpolation of a possibly-`undefined` value. -/
def optStr : Option String → String
  | none => "undefined"
  | some s => s

/-! ## The HTML parser collaborator

`node-html-parser`'s `parse`/`querySelector` is abstracted as: parsing either
fails or yields the document's elements in document order, each carrying a
selector-match predicate and its `innerHTML`. -/

/-- One element of a parsed document. -/
structure DomElem where
  matchesSel : String → Bool
  innerHTML : String

/-- A parsed document: its elements in document order
(`querySelector` returns the first match in this order). -/
def Doc := List DomElem

/-- The parse oracle: `parse(html)` either throws or yields a document. -/
def ParseFn := String → Except String Doc

/-- `extractContentBySelector` (`monitorWebsites.ts` lines 87–99):
empty selector returns the raw html; a parse error or a missing match falls
back to the raw html; otherwise the first matching element's `innerHTML`. -/
def extractContentBySelector (parseF : ParseFn) (html : String) (selector : String) : String :=
  if selector = "" then html
  else
    match parseF html with
    | Except.error _ => html
    | Except.ok root =>
      match root.find? (fun e => e.matchesSel selector) with
      | some element => element.innerHTML
      | none => html

/-! ## Event traces -/

/-- One awaited side effect of a processing run, in program order. -/
inductive Event where
  | fetch (url : String)
  | initialJudge (url content : String)
  | judge (url oldContent newContent : String)
  | notify (botToken chatId text : String)
  | persist (id : String) (u : WebsiteUpdate)
  deriving DecidableEq, Repr

/-- The return value of `processWebsite`:
`{ changed: boolean, summary?: string, content?: string }`. -/
structure Outcome where
  changed : Bool
  summary : Option String
  content : Option String
  deriving DecidableEq, Repr

/-- Result of one `processWebsite` run: the ordered side effects together
with the returned outcome, or the re-thrown error. -/
structure ProcessResult where
  events : List Event
  result : Except String Outcome
  deriving Repr

/-- The external collaborators of one run: the HTML parser, the two AI
judgment prompts (keyed by their full prompt inputs), and the current time. -/
structure Env where
  parseF : ParseFn
  initialNoticeOut : String → String → Option InitialNoticeOutput
  changeDetectionOut : String → String → String → Option ChangeDetectionOutput
  now : Nat

/-- `processWebsite` (`monitorWebsites.ts` lines 125–201).  `fetchRes` is the
normalized result of the `fetch(website.url)` call: a network failure or a
non-2xx response is `Except.error`, a 2xx response carries the body text. -/
def processWebsite (env : Env) (website : Website) (ts : TelegramSettings)
    (fetchRes : Except String String) : ProcessResult :=
  match fetchRes with
  | Except.error e =>
    { events := [Event.fetch website.url,
                 Event.persist website.id
                   { status := some WStatus.error, lastChecked := some env.now }]
      result := Except.error e }
  | Except.ok rawHtml =>
    let newContent := extractContentBySelector env.parseF rawHtml (website.selector.getD "")
    let now := env.now
    if website.status = WStatus.inactive ∨ website.lastContent = "" then
      let output := env.initialNoticeOut website.url (strTake newContent 8000)
      let noticeFound : Bool := match output with
        | some o => o.noticeFound
        | none => false
      let outSummary : Option String := match output with
        | some o => o.summary
        | none => none
      let summary := if noticeFound then "Initial notice found: " ++ optStr outSummary
        else "Website activated. Monitoring will start on the next check."
      if noticeFound && strTruthy outSummary then
        let message := "*Latest Notice on " ++ website.label ++ "*\n\n" ++
          optStr outSummary ++ "\n\n[View Website](" ++ website.url ++ ")"
        { events := [Event.fetch website.url,
                     Event.initialJudge website.url (strTake newContent 8000),
                     Event.notify ts.botToken ts.chatId message,
                     Event.persist website.id
                       { lastContent := some newContent, lastChecked := some now,
                         status := some WStatus.active, lastUpdated := some now,
                         lastChangeSummary := outSummary }]
          result := Except.ok { changed := noticeFound, summary := some summary,
                                content := some newContent } }
      else
        { events := [Event.fetch website.url,
                     Event.initialJudge website.url (strTake newContent 8000),
                     Event.persist website.id
                       { lastContent := some newContent, lastChecked := some now,
                         status := some WStatus.active, lastUpdated := some now,
                         lastChangeSummary := some "No notice found on first check." }]
          result := Except.ok { changed := noticeFound, summary := some summary,
                                content := some newContent } }
    else if website.lastContent ≠ "" ∧ website.lastContent ≠ newContent then
      let output := env.changeDetectionOut website.url
        (strTake website.lastContent 8000) (strTake newContent 8000)
      let changeDetected : Bool := match output with
        | some o => o.changeDetected
        | none => false
      let outSummary : Option String := match output with
        | some o => o.summary
        | none => none
      if changeDetected && strTruthy outSummary then
        let message := "*New Notice on " ++ website.label ++ "*\n\n" ++
          optStr outSummary ++ "\n\n[View Website](" ++ website.url ++ ")"
        { events := [Event.fetch website.url,
                     Event.judge website.url (strTake website.lastContent 8000)
                       (strTake newContent 8000),
                     Event.notify ts.botToken ts.chatId message,
                     Event.persist website.id
                       { lastContent := some newContent, lastChecked := some now,
                         lastUpdated := some now, status := some WStatus.active,
                         lastChangeSummary := outSummary }]
          result := Except.ok { changed := true, summary := outSummary,
                                content := some newContent } }
      else
        { events := [Event.fetch website.url,
                     Event.judge website.url (strTake website.lastContent 8000)
                       (strTake newContent 8000),
                     Event.persist website.id
                       { lastChecked := some now, status := some WStatus.active }]
          result := Except.ok { changed := false, summary := some "No changes detected.",
                                content := some newContent } }
    else
      { events := [Event.fetch website.url,
                   Event.persist website.id { lastChecked := some now }]
        result := Except.ok { changed := false, summary := some "No changes detected.",
                              content := some newContent } }

/-- Replay the `updateWebsite` events that target website `w` onto it. -/
def applyEvents (w : Website) (evs : List Event) : Website :=
  evs.foldl (fun acc e =>
    match e with
    | Event.persist i u => if i = w.id then applyUpdate acc u else acc
    | _ => acc) w

/-- The due computation of `monitorAllWebsites` (lines 235–239):
`now.getTime() - lastCheckedTime >= website.checkInterval * 60 * 1000`. -/
def dueCheck (now : Nat) (w : Website) : Bool :=
  (now : Int) - (w.lastChecked : Int) ≥ (w.checkInterval : Int) * 60 * 1000

/-- The per-resource loop of `monitorAllWebsites` (lines 227–246): inactive
websites are always processed; others only when the interval has elapsed.
`processWebsite` is awaited without a surrounding try/catch, so a re-thrown
error rejects the flow and the remaining websites are not reached. -/
def runCycle (env : Env) (fetchF : String → Except String String)
    (ts : TelegramSettings) : List Website → List Event × Except String Unit
  | [] => ([], Except.ok ())
  | w :: rest =>
    if w.status = WStatus.inactive then
      let pr := processWebsite env w ts (fetchF w.url)
      match pr.result with
      | Except.error e => (pr.events, Except.error e)
      | Except.ok _ =>
        let tail := runCycle env fetchF ts rest
        (pr.events ++ tail.1, tail.2)
    else if dueCheck env.now w then
      let pr := processWebsite env w ts (fetchF w.url)
      match pr.result with
      | Except.error e => (pr.events, Except.error e)
      | Except.ok _ =>
        let tail := runCycle env fetchF ts rest
        (pr.events ++ tail.1, tail.2)
    else
      runCycle env fetchF ts rest

/-- `monitorAllWebsites` (lines 203–249): load every website
(`getWebsitesToMonitor` does no server-side filtering), load the settings,
abort before any fetch when the settings are absent or a field is empty,
then run the per-resource loop. -/
def monitorAllWebsites (env : Env) (fetchF : String → Except String String)
    (websites : List Website) (settings : Option TelegramSettings) :
    List Event × Except String Unit :=
  match settings with
  | none => ([], Except.ok ())
  | some ts =>
    if ts.botToken = "" ∨ ts.chatId = "" then ([], Except.ok ())
    else if websites = [] then ([], Except.ok ())
    else runCycle env fetchF ts websites

/-- `getWebsite` (`src/lib/firestore.ts`): look up a website by id. -/
def getWebsite (store : List Website) (id : String) : Option Website :=
  store.find? (fun w => w.id = id)

/-- `monitorSingleWebsite` (lines 252–263): look up by id, throw
`Website not found` when absent, throw the settings error when the settings
are absent or a field is empty, otherwise run `processWebsite` (no due
computation) and return its outcome. -/
def monitorSingleWebsite (env : Env) (fetchF : String → Except String String)
    (store : List Website) (settings : Option TelegramSettings)
    (websiteId : String) : List Event × Except String Outcome :=
  match getWebsite store websiteId with
  | none => ([], Except.error "Website not found")
  | some website =>
    match settings with
    | none => ([], Except.error
        "Telegram settings are not configured. Please check your environment variables.")
    | some ts =>
      if ts.botToken = "" ∨ ts.chatId = "" then
        ([], Except.error
          "Telegram settings are not configured. Please check your environment variables.")
      else
        let pr := processWebsite env website ts (fetchF website.url)
        (pr.events, pr.result)

/-! ## Helper predicates and lemmas -/

/-- Is an event a Telegram send? -/
def isNotify : Event → Bool
  | Event.notify _ _ _ => true
  | _ => false

/-- Is an event a Firestore update? -/
def isPersist : Event → Bool
  | Event.persist _ _ => true
  | _ => false

/-- `List.find?` returns the first element of the list satisfying the
predicate: every strictly earlier element fails it. -/
theorem find?_is_first {α : Type} (p : α → Bool) (l : List α) (x : α)
    (h : l.find? p = some x) :
    ∃ i, ∃ hi : i < l.length, l.get ⟨i, hi⟩ = x ∧ p x = true ∧
      ∀ j, ∀ hj : j < l.length, j < i → p (l.get ⟨j, hj⟩) = false := by
  induction l with
  | nil => simp [List.find?] at h
  | cons a as ih =>
    rw [List.find?] at h
    by_cases hp : p a = true
    · rw [hp] at h
      simp only [Option.some.injEq] at h
      exact ⟨0, by simp, by simpa using h.symm ▸ rfl, h ▸ hp, fun j hj hlt => by omega⟩
    · rw [Bool.not_eq_true] at hp
      rw [hp] at h
      obtain ⟨i, hi, hget, hpx, hfirst⟩ := ih h
      refine ⟨i + 1, by simpa using hi, by simpa using hget, hpx, ?_⟩
      intro j hj hlt
      match j with
      | 0 => simpa using hp
      | j' + 1 =>
        exact hfirst j' (by simpa using hj) (by omega)

/-- C8: extraction with an empty locator returns the raw html unchanged;
with a non-empty locator it returns the innerHTML of the first element in
document order that matches; if no element matches or the parse fails it
falls back to the full raw html; the function is total (never raises). -/
theorem extractContentBySelector_spec (parseF : ParseFn) (html selector : String) :
    (selector = "" → extractContentBySelector parseF html selector = html) ∧
    (∀ e, parseF html = Except.error e →
      extractContentBySelector parseF html selector = html) ∧
    (∀ root, parseF html = Except.ok root →
      (root.find? (fun el => el.matchesSel selector) = none →
        extractContentBySelector parseF html selector = html) ∧
      (∀ el, root.find? (fun el => el.matchesSel selector) = some el → selector ≠ "" →
        extractContentBySelector parseF html selector = el.innerHTML ∧
        ∃ i, ∃ hi : i < root.length, root.get ⟨i, hi⟩ = el ∧
          el.matchesSel selector = true ∧
          ∀ j, ∀ hj : j < root.length, j < i →
            (root.get ⟨j, hj⟩).matchesSel selector = false)) := by
  refine ⟨fun h => by simp [extractContentBySelector, h], ?_, ?_⟩
  · intro e he
    by_cases hs : selector = ""
    · simp [extractContentBySelector, hs]
    · simp [extractContentBySelector, hs, he]
  · intro root hr
    constructor
    · intro hn
      by_cases hs : selector = ""
      · simp [extractContentBySelector, hs]
      · simp [extractContentBySelector, hs, hr, hn]
    · intro el hel hs
      refine ⟨by simp [extractContentBySelector, hs, hr, hel], ?_⟩
      exact find?_is_first _ root el hel

/-- A parsed element matching the `#board` selector, for concrete runs. -/
def elBoard : DomElem := { matchesSel := fun s => s == "#board", innerHTML := "X" }

/-- A parsed element matching no selector, for concrete runs. -/
def elOther : DomElem := { matchesSel := fun _ => false, innerHTML := "Y" }

/-- A parse oracle yielding the two elements above, for concrete runs. -/
def parseBoard : ParseFn := fun _ => Except.ok [elBoard, elOther]

/-- C8 witness: on `<div id="board">X</div><div>Y</div>`, locator `#board`
extracts `X`, and the empty locator returns the raw html. -/
theorem extractContentBySelector_spec_witness :
    extractContentBySelector parseBoard "<div id=\"board\">X</div><div>Y</div>" "#board"
      = "X" ∧
    extractContentBySelector parseBoard "<div id=\"board\">X</div><div>Y</div>" ""
      = "<div id=\"board\">X</div><div>Y</div>" := by
  constructor
  · exact (((extractContentBySelector_spec parseBoard
      "<div id=\"board\">X</div><div>Y</div>" "#board").2.2 [elBoard, elOther] rfl).2
      elBoard rfl (by decide)).1
  · exact (extractContentBySelector_spec parseBoard
      "<div id=\"board\">X</div><div>Y</div>" "").1 rfl

/-- C4: when the fetch throws (network failure or non-2xx response),
processing persists exactly `status = error` and `lastCheckedAt = now`;
every other field of the stored record — in particular the snapshot,
`lastUpdatedAt` and `lastChangeSummary` — keeps its prior value, and no
notification is sent. -/
theorem processWebsite_fetch_error_frame (env : Env) (w : Website)
    (ts : TelegramSettings) (fr : Except String String) (e : String)
    (hf : fr = Except.error e) :
    (processWebsite env w ts fr).events =
      [Event.fetch w.url,
       Event.persist w.id { status := some WStatus.error, lastChecked := some env.now }] ∧
    (processWebsite env w ts fr).result = Except.error e ∧
    (∀ b c t, Event.notify b c t ∉ (processWebsite env w ts fr).events) ∧
    (applyEvents w (processWebsite env w ts fr).events).status = WStatus.error ∧
    (applyEvents w (processWebsite env w ts fr).events).lastChecked = env.now ∧
    (applyEvents w (processWebsite env w ts fr).events).lastContent = w.lastContent ∧
    (applyEvents w (processWebsite env w ts fr).events).lastUpdated = w.lastUpdated ∧
    (applyEvents w (processWebsite env w ts fr).events).lastChangeSummary
      = w.lastChangeSummary ∧
    (applyEvents w (processWebsite env w ts fr).events).url = w.url ∧
    (applyEvents w (processWebsite env w ts fr).events).label = w.label ∧
    (applyEvents w (processWebsite env w ts fr).events).checkInterval = w.checkInterval ∧
    (applyEvents w (processWebsite env w ts fr).events).selector = w.selector := by
  subst hf
  refine ⟨rfl, rfl, ?_, ?_⟩
  · intro b c t hmem
    simp [processWebsite] at hmem
  · simp [processWebsite, applyEvents, applyUpdate]

/-- C4 witness: a concrete failing fetch on an active website with a stored
snapshot leaves everything but `status` and `lastChecked` untouched. -/
theorem processWebsite_fetch_error_frame_witness :
    (Except.error "HTTP 500" : Except String String) = Except.error "HTTP 500" ∧
    (applyEvents
        { id := "w1", url := "http://a", label := "A", checkInterval := 10,
          lastChecked := 0, status := WStatus.active, lastContent := "snap",
          lastUpdated := 7, selector := none, lastChangeSummary := some "old" }
        (processWebsite
          { parseF := fun _ => Except.error "parse",
            initialNoticeOut := fun _ _ => none,
            changeDetectionOut := fun _ _ _ => none, now := 600000 }
          { id := "w1", url := "http://a", label := "A", checkInterval := 10,
            lastChecked := 0, status := WStatus.active, lastContent := "snap",
            lastUpdated := 7, selector := none, lastChangeSummary := some "old" }
          { botToken := "tok", chatId := "chat" }
          (Except.error "HTTP 500")).events).lastContent = "snap" := by
  refine ⟨rfl, ?_⟩
  exact (processWebsite_fetch_error_frame
    { parseF := fun _ => Except.error "parse",
      initialNoticeOut := fun _ _ => none,
      changeDetectionOut := fun _ _ _ => none, now := 600000 }
    { id := "w1", url := "http://a", label := "A", checkInterval := 10,
      lastChecked := 0, status := WStatus.active, lastContent := "snap",
      lastUpdated := 7, selector := none, lastChangeSummary := some "old" }
    { botToken := "tok", chatId := "chat" }
    (Except.error "HTTP 500") "HTTP 500" rfl).2.2.2.2.2.1

/-- C6: a website with `status = inactive` or an empty stored snapshot whose
fetch succeeds is classified by the initial-notice prompt (FirstObservation)
and the persisted update always sets `status = active`, for every fetched
content and every prompt output. -/
theorem processWebsite_first_observation_activates (env : Env) (w : Website)
    (ts : TelegramSettings) (raw : String)
    (h : w.status = WStatus.inactive ∨ w.lastContent = "") :
    Event.initialJudge w.url
        (strTake (extractContentBySelector env.parseF raw (w.selector.getD "")) 8000)
      ∈ (processWebsite env w ts (Except.ok raw)).events ∧
    (∃ u, Event.persist w.id u ∈ (processWebsite env w ts (Except.ok raw)).events ∧
      u.status = some WStatus.active ∧
      u.lastContent =
        some (extractContentBySelector env.parseF raw (w.selector.getD ""))) ∧
    (applyEvents w (processWebsite env w ts (Except.ok raw)).events).status
      = WStatus.active := by
  refine ⟨?_, ?_, ?_⟩
  · simp only [processWebsite]
    rw [if_pos h]
    split
    · simp
    · simp
  · simp only [processWebsite]
    rw [if_pos h]
    split
    · exact ⟨_, List.mem_cons_of_mem _ (List.mem_cons_of_mem _
        (List.mem_cons_of_mem _ (List.mem_cons_self _ _))), rfl, rfl⟩
    · exact ⟨_, List.mem_cons_of_mem _ (List.mem_cons_of_mem _
        (List.mem_cons_self _ _)), rfl, rfl⟩
  · simp only [processWebsite]
    rw [if_pos h]
    split
    · simp [applyEvents, applyUpdate]
    · simp [applyEvents, applyUpdate]

/-- C6 witness: an inactive website with a fetch returning arbitrary content
and a prompt finding no notice still becomes `active`. -/
theorem processWebsite_first_observation_activates_witness :
    ({ id := "w1", url := "http://a", label := "A", checkInterval := 10,
       lastChecked := 0, status := WStatus.inactive, lastContent := "",
       lastUpdated := 0, selector := none,
       lastChangeSummary := none : Website }.status = WStatus.inactive ∨
     ({ id := "w1", url := "http://a", label := "A", checkInterval := 10,
        lastChecked := 0, status := WStatus.inactive, lastContent := "",
        lastUpdated := 0, selector := none,
        lastChangeSummary := none : Website }.lastContent = "")) ∧
    (applyEvents
        { id := "w1", url := "http://a", label := "A", checkInterval := 10,
          lastChecked := 0, status := WStatus.inactive, lastContent := "",
          lastUpdated := 0, selector := none, lastChangeSummary := none }
        (processWebsite
          { parseF := fun _ => Except.error "parse",
            initialNoticeOut := fun _ _ => none,
            changeDetectionOut := fun _ _ _ => none, now := 600000 }
          { id := "w1", url := "http://a", label := "A", checkInterval := 10,
            lastChecked := 0, status := WStatus.inactive, lastContent := "",
            lastUpdated := 0, selector := none, lastChangeSummary := none }
          { botToken := "tok", chatId := "chat" }
          (Except.ok "<html>A</html>")).events).status = WStatus.active := by
  refine ⟨Or.inl rfl, ?_⟩
  exact (processWebsite_first_observation_activates
    { parseF := fun _ => Except.error "parse",
      initialNoticeOut := fun _ _ => none,
      changeDetectionOut := fun _ _ _ => none, now := 600000 }
    { id := "w1", url := "http://a", label := "A", checkInterval := 10,
      lastChecked := 0, status := WStatus.inactive, lastContent := "",
      lastUpdated := 0, selector := none, lastChangeSummary := none }
    { botToken := "tok", chatId := "chat" }
    "<html>A</html>" (Or.inl rfl)).2.2

/-- C7: the Unchanged-vs-Changed decision compares the full untruncated
stored snapshot against the full untruncated new content: whenever they
differ — even only beyond the 8000-character prefix — the substantive-change
judgment is invoked, and always on both contents truncated identically to
their first 8000 characters; when they are byte-for-byte equal no judgment
runs and the outcome is Unchanged. -/
theorem processWebsite_two_tier_comparison (env : Env) (w : Website)
    (ts : TelegramSettings) (raw : String)
    (hs : w.status ≠ WStatus.inactive) (hc : w.lastContent ≠ "") :
    (w.lastContent ≠ extractContentBySelector env.parseF raw (w.selector.getD "") →
      Event.judge w.url (strTake w.lastContent 8000)
        (strTake (extractContentBySelector env.parseF raw (w.selector.getD "")) 8000)
        ∈ (processWebsite env w ts (Except.ok raw)).events) ∧
    (w.lastContent = extractContentBySelector env.parseF raw (w.selector.getD "") →
      (∀ a b c, Event.judge a b c ∉ (processWebsite env w ts (Except.ok raw)).events) ∧
      (processWebsite env w ts (Except.ok raw)).result =
        Except.ok { changed := false, summary := some "No changes detected.",
                    content := some (extractContentBySelector env.parseF raw
                      (w.selector.getD "")) }) := by
  constructor
  · intro hne
    simp only [processWebsite]
    rw [if_neg (not_or.mpr ⟨hs, hc⟩), if_pos ⟨hc, hne⟩]
    split
    · simp
    · simp
  · intro heq
    constructor
    · intro a b c
      simp only [processWebsite]
      rw [if_neg (not_or.mpr ⟨hs, hc⟩), if_neg (fun h => h.2 heq)]
      simp
    · simp only [processWebsite]
      rw [if_neg (not_or.mpr ⟨hs, hc⟩), if_neg (fun h => h.2 heq)]

/-- A stored snapshot of 8001 `a` characters. -/
def bigOld : String := String.mk (List.replicate 8001 'a')

/-- A fetched content equal to `bigOld` on its whole first 8000 characters
but longer: the two differ only beyond the 8000-character prefix. -/
def bigNew : String := String.mk (List.replicate 8001 'a' ++ ['b'])

/-- The first 8000 characters of `bigOld` and `bigNew` coincide. -/
theorem bigOld_take_eq : strTake bigOld 8000 = strTake bigNew 8000 := by
  have h : List.take 8000 (List.replicate 8001 'a' ++ ['b'])
      = List.take 8000 (List.replicate 8001 'a') :=
    List.take_append_of_le_length (by rw [List.length_replicate]; omega)
  exact congrArg String.mk h.symm

/-- `bigOld` and `bigNew` are different strings (they differ in length). -/
theorem bigOld_ne_bigNew : bigOld ≠ bigNew := by
  intro h
  have h2 : (List.replicate 8001 'a').length
      = (List.replicate 8001 'a' ++ ['b']).length :=
    congrArg (fun s => s.data.length) h
  simp only [List.length_append, List.length_replicate, List.length_singleton] at h2
  omega

/-- `bigOld` is not the empty string. -/
theorem bigOld_ne_empty : bigOld ≠ "" := by
  intro h
  have h2 : (List.replicate 8001 'a').length = ([] : List Char).length :=
    congrArg (fun s => s.data.length) h
  rw [List.length_replicate] at h2
  simp at h2

/-- An active website whose stored snapshot is `bigOld`. -/
def wBig : Website :=
  { id := "wb", url := "http://big", label := "B", checkInterval := 10,
    lastChecked := 0, status := WStatus.active, lastContent := bigOld,
    lastUpdated := 0, selector := none, lastChangeSummary := none }

/-- An environment whose judgment oracle reports no substantive change. -/
def envBig : Env :=
  { parseF := fun _ => Except.error "parse"
    initialNoticeOut := fun _ _ => none
    changeDetectionOut := fun _ _ _ => none
    now := 600000 }

/-- C7 witness: contents that agree on their entire first 8000 characters
but differ beyond it are compared unequal and routed to the judgment step,
which receives the identically truncated contents. -/
theorem processWebsite_two_tier_comparison_witness :
    wBig.status ≠ WStatus.inactive ∧ wBig.lastContent ≠ "" ∧
    strTake bigOld 8000 = strTake bigNew 8000 ∧ bigOld ≠ bigNew ∧
    Event.judge "http://big" (strTake bigOld 8000) (strTake bigNew 8000)
      ∈ (processWebsite envBig wBig { botToken := "tok", chatId := "chat" }
          (Except.ok bigNew)).events := by
  refine ⟨(by decide), bigOld_ne_empty, bigOld_take_eq, bigOld_ne_bigNew, ?_⟩
  exact (processWebsite_two_tier_comparison envBig wBig
    { botToken := "tok", chatId := "chat" } bigNew
    (by decide) bigOld_ne_empty).1 bigOld_ne_bigNew

/-- Concrete Telegram settings for concrete runs. -/
def tsTok : TelegramSettings := { botToken := "tok", chatId := "chat" }

/-- A website in `error` status whose stored snapshot is `"same"`. -/
def wErrSame : Website :=
  { id := "we", url := "http://e", label := "E", checkInterval := 10,
    lastChecked := 0, status := WStatus.error, lastContent := "same",
    lastUpdated := 5, selector := none, lastChangeSummary := none }

/-- C3 counterexample: an `error`-status website whose successful fetch
returns content byte-identical to the stored snapshot (outcome Unchanged)
keeps `status = error` — the claim that every successful fetch transitions
it to `active` is false. -/
theorem processWebsite_error_unchanged_counter :
    wErrSame.status = WStatus.error ∧
    (processWebsite envBig wErrSame tsTok (Except.ok "same")).result =
      Except.ok { changed := false, summary := some "No changes detected.",
                  content := some "same" } ∧
    (applyEvents wErrSame
        (processWebsite envBig wErrSame tsTok (Except.ok "same")).events).status
      ≠ WStatus.active := by
  refine ⟨rfl, rfl, by decide⟩

/-- C3 (amended): after a successful fetch, an `error`-status resource
transitions to `active` when the outcome is FirstObservation (empty stored
snapshot) or when the stored snapshot differs from the new content (Changed
or judgment-downgraded); when the contents are byte-identical (Unchanged)
the persisted update carries no `status` field, so the status stays
`error`. -/
theorem processWebsite_error_status_transitions (env : Env) (w : Website)
    (ts : TelegramSettings) (raw : String) (he : w.status = WStatus.error) :
    (w.lastContent = "" →
      (applyEvents w (processWebsite env w ts (Except.ok raw)).events).status
        = WStatus.active) ∧
    (w.lastContent ≠ "" →
      w.lastContent ≠ extractContentBySelector env.parseF raw (w.selector.getD "") →
      (applyEvents w (processWebsite env w ts (Except.ok raw)).events).status
        = WStatus.active) ∧
    (w.lastContent ≠ "" →
      w.lastContent = extractContentBySelector env.parseF raw (w.selector.getD "") →
      (applyEvents w (processWebsite env w ts (Except.ok raw)).events).status
        = WStatus.error ∧
      (∀ u, Event.persist w.id u ∈ (processWebsite env w ts (Except.ok raw)).events →
        u.status = none)) := by
  have hs : w.status ≠ WStatus.inactive := by rw [he]; intro h; cases h
  refine ⟨?_, ?_, ?_⟩
  · intro hce
    simp only [processWebsite]
    rw [if_pos (Or.inr hce)]
    split
    · simp [applyEvents, applyUpdate]
    · simp [applyEvents, applyUpdate]
  · intro hc hne
    simp only [processWebsite]
    rw [if_neg (not_or.mpr ⟨hs, hc⟩), if_pos ⟨hc, hne⟩]
    split
    · simp [applyEvents, applyUpdate]
    · simp [applyEvents, applyUpdate]
  · intro hc heq
    simp only [processWebsite]
    rw [if_neg (not_or.mpr ⟨hs, hc⟩), if_neg (fun h => h.2 heq)]
    constructor
    · simp [applyEvents, applyUpdate, he]
    · intro u hu
      simp only [List.mem_cons, List.mem_singleton] at hu
      rcases hu with h | h | h
      · cases h
      · cases h
        rfl
      · cases h

/-- C3 witness: the same `error`-status website whose fetch returns content
that differs from the stored snapshot does become `active`. -/
theorem processWebsite_error_status_transitions_witness :
    wErrSame.status = WStatus.error ∧ wErrSame.lastContent ≠ "" ∧
    wErrSame.lastContent ≠ "diff" ∧
    (applyEvents wErrSame
        (processWebsite envBig wErrSame tsTok (Except.ok "diff")).events).status
      = WStatus.active := by
  refine ⟨rfl, by decide, by decide, ?_⟩
  exact (processWebsite_error_status_transitions envBig wErrSame tsTok "diff"
    rfl).2.1 (by decide) (by decide)

/-- An environment whose change judgment flags a substantive change with a
non-empty summary. -/
def envChange : Env :=
  { parseF := fun _ => Except.error "parse"
    initialNoticeOut := fun _ _ => some { noticeFound := true, summary := some "N1" }
    changeDetectionOut := fun _ _ _ => some { changeDetected := true, summary := some "S1" }
    now := 600000 }

/-- An active website with stored snapshot `"old"`. -/
def wAct : Website :=
  { id := "wa", url := "http://a", label := "A", checkInterval := 10,
    lastChecked := 0, status := WStatus.active, lastContent := "old",
    lastUpdated := 0, selector := none, lastChangeSummary := none }

/-- C2 counterexample: in a concrete Changed run the Telegram send is
awaited strictly before the `updateWebsite` persistence write (the first
notify event precedes the first persist event), so the claimed
persist-before-notify order is false. -/
theorem processWebsite_notify_persist_order_counter :
    (processWebsite envChange wAct tsTok (Except.ok "new")).result =
      Except.ok { changed := true, summary := some "S1", content := some "new" } ∧
    (processWebsite envChange wAct tsTok (Except.ok "new")).events.any isNotify = true ∧
    (processWebsite envChange wAct tsTok (Except.ok "new")).events.any isPersist = true ∧
    (processWebsite envChange wAct tsTok (Except.ok "new")).events.findIdx isNotify
      < (processWebsite envChange wAct tsTok (Except.ok "new")).events.findIdx isPersist := by
  refine ⟨rfl, by decide, by decide, by decide⟩

/-- C2 (amended): within one resource's processing the persistence write is
the single final awaited effect: the trace ends with exactly one
`updateWebsite` call targeting the resource and no persist occurs earlier,
so the notification (when one is sent) precedes the persistence write, and
the write completes before the function returns its outcome. -/
theorem processWebsite_persist_last (env : Env) (w : Website)
    (ts : TelegramSettings) (fr : Except String String) :
    ∃ pre u, (processWebsite env w ts fr).events = pre ++ [Event.persist w.id u] ∧
      ∀ e ∈ pre, isPersist e = false := by
  cases fr with
  | error e =>
    exact ⟨[Event.fetch w.url], _, rfl, by simp [isPersist]⟩
  | ok raw =>
    simp only [processWebsite]
    split
    · split
      · exact ⟨[Event.fetch w.url, Event.initialJudge w.url _, Event.notify ts.botToken ts.chatId _],
          _, rfl, by simp [isPersist, isNotify]⟩
      · exact ⟨[Event.fetch w.url, Event.initialJudge w.url _], _, rfl, by simp [isPersist]⟩
    · split
      · split
        · exact ⟨[Event.fetch w.url, Event.judge w.url _ _, Event.notify ts.botToken ts.chatId _],
            _, rfl, by simp [isPersist]⟩
        · exact ⟨[Event.fetch w.url, Event.judge w.url _ _], _, rfl, by simp [isPersist]⟩
      · exact ⟨[Event.fetch w.url], _, rfl, by simp [isPersist]⟩

/-- C2 witness: the persist-last decomposition at a concrete Changed run. -/
theorem processWebsite_persist_last_witness :
    ∃ pre u, (processWebsite envChange wAct tsTok (Except.ok "new")).events =
        pre ++ [Event.persist wAct.id u] ∧
      ∀ e ∈ pre, isPersist e = false :=
  processWebsite_persist_last envChange wAct tsTok (Except.ok "new")

/-- A due active website whose fetch will fail. -/
def wFail : Website :=
  { id := "wf", url := "http://f", label := "F", checkInterval := 10,
    lastChecked := 0, status := WStatus.active, lastContent := "x",
    lastUpdated := 0, selector := none, lastChangeSummary := none }

/-- A due active website whose fetch would succeed. -/
def wOk : Website :=
  { id := "wo", url := "http://o", label := "O", checkInterval := 10,
    lastChecked := 0, status := WStatus.active, lastContent := "x",
    lastUpdated := 0, selector := none, lastChangeSummary := none }

/-- A fetch oracle failing exactly on `wFail`'s url. -/
def fetchFail : String → Except String String :=
  fun u => if u = "http://f" then Except.error "boom" else Except.ok "x"

/-- C1 counterexample: in a cycle over `[wFail, wOk]` where `wFail`'s fetch
throws, the flow rejects with that error and `wOk` is never fetched nor
written — one resource's error aborts the remaining resources' processing,
refuting the claimed per-resource isolation. -/
theorem runCycle_abort_counter :
    (runCycle envChange fetchFail tsTok [wFail, wOk]).2 = Except.error "boom" ∧
    (runCycle envChange fetchFail tsTok [wFail, wOk]).1 =
      [Event.fetch "http://f",
       Event.persist "wf" { status := some WStatus.error, lastChecked := some 600000 }] ∧
    Event.fetch "http://o" ∉ (runCycle envChange fetchFail tsTok [wFail, wOk]).1 := by
  refine ⟨rfl, by decide, by decide⟩

/-- C1 (amended): an error while processing one resource is caught inside
that resource's processing — `status = error` and `lastCheckedAt` are
persisted — but the error is then re-thrown and the bulk cycle does not
catch it: the cycle stops at the failing resource and the remaining
resources are not processed. -/
theorem runCycle_error_aborts (env : Env) (fetchF : String → Except String String)
    (ts : TelegramSettings) (w : Website) (rest : List Website) (e : String)
    (hdue : w.status = WStatus.inactive ∨ dueCheck env.now w = true)
    (hf : fetchF w.url = Except.error e) :
    runCycle env fetchF ts (w :: rest) =
      ([Event.fetch w.url,
        Event.persist w.id { status := some WStatus.error, lastChecked := some env.now }],
       Except.error e) := by
  by_cases hi : w.status = WStatus.inactive
  · simp only [runCycle]
    rw [if_pos hi, hf]
    rfl
  · rcases hdue with h | h
    · exact absurd h hi
    · simp only [runCycle]
      rw [if_neg hi, if_pos h, hf]
      rfl

/-- C1 witness: the abort theorem applied to the concrete two-website
cycle. -/
theorem runCycle_error_aborts_witness :
    (wFail.status = WStatus.inactive ∨ dueCheck envChange.now wFail = true) ∧
    fetchFail wFail.url = Except.error "boom" ∧
    runCycle envChange fetchFail tsTok [wFail, wOk] =
      ([Event.fetch wFail.url,
        Event.persist wFail.id
          { status := some WStatus.error, lastChecked := some envChange.now }],
       Except.error "boom") := by
  refine ⟨Or.inr (by decide), rfl, ?_⟩
  exact runCycle_error_aborts envChange fetchFail tsTok wFail [wOk] "boom"
    (Or.inr (by decide)) rfl

/-- C5: in a full cycle a non-inactive website is processed exactly when
`now − lastChecked ≥ checkInterval × 60 × 1000`; when not due it is skipped
with no fetch and no writes (the cycle over it equals the cycle over the
rest); inactive websites are processed regardless of elapsed time.  With
`checkInterval = 10`, a website checked 9 minutes ago is not due and one
checked 10 or more minutes ago is due. -/
theorem runCycle_due_filter (env : Env) (fetchF : String → Except String String)
    (ts : TelegramSettings) (w : Website) (rest : List Website) :
    (w.status ≠ WStatus.inactive → dueCheck env.now w = false →
      runCycle env fetchF ts (w :: rest) = runCycle env fetchF ts rest) ∧
    (w.status ≠ WStatus.inactive → dueCheck env.now w = true →
      ∃ t, (runCycle env fetchF ts (w :: rest)).1
        = (processWebsite env w ts (fetchF w.url)).events ++ t) ∧
    (w.status = WStatus.inactive →
      ∃ t, (runCycle env fetchF ts (w :: rest)).1
        = (processWebsite env w ts (fetchF w.url)).events ++ t) ∧
    (w.checkInterval = 10 → env.now = w.lastChecked + 540000 →
      dueCheck env.now w = false) ∧
    (w.checkInterval = 10 → w.lastChecked + 600000 ≤ env.now →
      dueCheck env.now w = true) ∧
    Event.fetch w.url ∈ (processWebsite env w ts (fetchF w.url)).events := by
  refine ⟨?_, ?_, ?_, ?_, ?_, ?_⟩
  · intro hi hd
    simp only [runCycle]
    rw [if_neg hi, if_neg (by simp [hd])]
  · intro hi hd
    simp only [runCycle]
    rw [if_neg hi, if_pos hd]
    cases hr : (processWebsite env w ts (fetchF w.url)).result with
    | error e => exact ⟨[], by simp [hr]⟩
    | ok o => exact ⟨(runCycle env fetchF ts rest).1, by simp [hr]⟩
  · intro hi
    simp only [runCycle]
    rw [if_pos hi]
    cases hr : (processWebsite env w ts (fetchF w.url)).result with
    | error e => exact ⟨[], by simp [hr]⟩
    | ok o => exact ⟨(runCycle env fetchF ts rest).1, by simp [hr]⟩
  · intro h10 hn
    simp only [dueCheck, h10, hn, decide_eq_false_iff_not]
    push_cast
    omega
  · intro h10 hn
    simp only [dueCheck, h10, decide_eq_true_eq]
    push_cast
    omega
  · cases hf : fetchF w.url with
    | error e => simp [processWebsite]
    | ok raw =>
      simp only [processWebsite]
      split
      · split
        · simp
        · simp
      · split
        · split
          · simp
          · simp
        · simp

/-- A website checked 9 minutes before `envChange.now`, interval 10. -/
def wNotDue : Website :=
  { id := "wn", url := "http://n", label := "N", checkInterval := 10,
    lastChecked := 60000, status := WStatus.active, lastContent := "x",
    lastUpdated := 0, selector := none, lastChangeSummary := none }

/-- C5 witness: the 9-minutes-ago website is skipped — the cycle over it
equals the cycle over the empty rest, performing no fetch and no write. -/
theorem runCycle_due_filter_witness :
    wNotDue.status ≠ WStatus.inactive ∧ dueCheck envChange.now wNotDue = false ∧
    runCycle envChange fetchFail tsTok [wNotDue] =
      runCycle envChange fetchFail tsTok [] := by
  refine ⟨by decide, by decide, ?_⟩
  exact (runCycle_due_filter envChange fetchFail tsTok wNotDue []).1
    (by decide) (by decide)

/-- C9: the single-resource forced check fails with `Website not found` when
the id is unknown and with the settings error when the settings are absent
or a field is empty — in both failure cases with an empty event trace (no
fetch, no writes) — and otherwise runs `processWebsite` directly (its
definition consults no due computation) and returns that run's trace and
outcome synchronously. -/
theorem monitorSingleWebsite_contract (env : Env)
    (fetchF : String → Except String String) (store : List Website)
    (settings : Option TelegramSettings) (wid : String) :
    (getWebsite store wid = none →
      monitorSingleWebsite env fetchF store settings wid =
        ([], Except.error "Website not found")) ∧
    (∀ w, getWebsite store wid = some w → settings = none →
      monitorSingleWebsite env fetchF store settings wid =
        ([], Except.error
          "Telegram settings are not configured. Please check your environment variables.")) ∧
    (∀ w ts, getWebsite store wid = some w → settings = some ts →
      (ts.botToken = "" ∨ ts.chatId = "") →
      monitorSingleWebsite env fetchF store settings wid =
        ([], Except.error
          "Telegram settings are not configured. Please check your environment variables.")) ∧
    (∀ w ts, getWebsite store wid = some w → settings = some ts →
      ts.botToken ≠ "" → ts.chatId ≠ "" →
      monitorSingleWebsite env fetchF store settings wid =
        ((processWebsite env w ts (fetchF w.url)).events,
         (processWebsite env w ts (fetchF w.url)).result)) := by
  refine ⟨?_, ?_, ?_, ?_⟩
  · intro h
    simp [monitorSingleWebsite, h]
  · intro w hw hs
    simp [monitorSingleWebsite, hw, hs]
  · intro w ts hw hs hempty
    simp only [monitorSingleWebsite, hw, hs]
    rw [if_pos hempty]
  · intro w ts hw hs hb hc
    simp only [monitorSingleWebsite, hw, hs]
    rw [if_neg (not_or.mpr ⟨hb, hc⟩)]

/-- C9 witness: a successful forced check on a stored website returns the
`processWebsite` trace and outcome; an unknown id fails with
`Website not found` and no events. -/
theorem monitorSingleWebsite_contract_witness :
    getWebsite [wAct] "wa" = some wAct ∧
    tsTok.botToken ≠ "" ∧ tsTok.chatId ≠ "" ∧
    monitorSingleWebsite envChange fetchFail [wAct] (some tsTok) "wa" =
      ((processWebsite envChange wAct tsTok (fetchFail wAct.url)).events,
       (processWebsite envChange wAct tsTok (fetchFail wAct.url)).result) ∧
    getWebsite [wAct] "nope" = none ∧
    monitorSingleWebsite envChange fetchFail [wAct] (some tsTok) "nope" =
      ([], Except.error "Website not found") := by
  refine ⟨rfl, by decide, by decide, ?_, rfl, ?_⟩
  · exact (monitorSingleWebsite_contract envChange fetchFail [wAct]
      (some tsTok) "wa").2.2.2 wAct tsTok rfl rfl (by decide) (by decide)
  · exact (monitorSingleWebsite_contract envChange fetchFail [wAct]
      (some tsTok) "nope").1 rfl

/-- The extracted content of one successful fetch of `w`. -/
def newContentOf (env : Env) (w : Website) (raw : String) : String :=
  extractContentBySelector env.parseF raw (w.selector.getD "")

/-- The website record after one `processWebsite` run's persisted updates. -/
def finalAfter (env : Env) (w : Website) (ts : TelegramSettings)
    (fr : Except String String) : Website :=
  applyEvents w (processWebsite env w ts fr).events

/-- The guard of the Changed persistence branch: the judgment prompt (on the
truncated contents) flagged a change AND returned a truthy (non-empty)
summary. -/
def judgedChange (env : Env) (url old new : String) : Bool :=
  match env.changeDetectionOut url (strTake old 8000) (strTake new 8000) with
  | some o => o.changeDetected && strTruthy o.summary
  | none => false

/-- C10: the stored snapshot is overwritten on FirstObservation and on a
judged substantive change with a truthy summary; it is kept unchanged on a
byte-identical check and on a judgment-downgraded difference (including a
flagged change with a missing or empty summary) — and after a downgraded
difference the unchanged snapshot still differs from the same new content,
so a subsequent check re-submits the pair to the judgment prompt. -/
theorem processWebsite_snapshot_policy (env : Env) (w : Website)
    (ts : TelegramSettings) (raw : String) :
    ((w.status = WStatus.inactive ∨ w.lastContent = "") →
      (finalAfter env w ts (Except.ok raw)).lastContent = newContentOf env w raw) ∧
    (w.status ≠ WStatus.inactive → w.lastContent ≠ "" →
      w.lastContent = newContentOf env w raw →
      (finalAfter env w ts (Except.ok raw)).lastContent = w.lastContent) ∧
    (w.status ≠ WStatus.inactive → w.lastContent ≠ "" →
      w.lastContent ≠ newContentOf env w raw →
      judgedChange env w.url w.lastContent (newContentOf env w raw) = false →
      (finalAfter env w ts (Except.ok raw)).lastContent = w.lastContent ∧
      Event.judge w.url (strTake w.lastContent 8000)
          (strTake (newContentOf env w raw) 8000)
        ∈ (processWebsite env (finalAfter env w ts (Except.ok raw)) ts
            (Except.ok raw)).events) ∧
    (w.status ≠ WStatus.inactive → w.lastContent ≠ "" →
      w.lastContent ≠ newContentOf env w raw →
      judgedChange env w.url w.lastContent (newContentOf env w raw) = true →
      (finalAfter env w ts (Except.ok raw)).lastContent = newContentOf env w raw) := by
  have hg : ((match env.changeDetectionOut w.url (strTake w.lastContent 8000)
        (strTake (extractContentBySelector env.parseF raw (w.selector.getD "")) 8000) with
      | some o => o.changeDetected
      | none => false) &&
      strTruthy (match env.changeDetectionOut w.url (strTake w.lastContent 8000)
        (strTake (extractContentBySelector env.parseF raw (w.selector.getD "")) 8000) with
      | some o => o.summary
      | none => none)) =
      judgedChange env w.url w.lastContent (newContentOf env w raw) := by
    simp only [judgedChange, newContentOf]
    cases env.changeDetectionOut w.url (strTake w.lastContent 8000)
      (strTake (extractContentBySelector env.parseF raw (w.selector.getD "")) 8000) with
    | none => rfl
    | some o => rfl
  refine ⟨?_, ?_, ?_, ?_⟩
  · intro h
    simp only [finalAfter, newContentOf, processWebsite]
    rw [if_pos h]
    split
    · simp [applyEvents, applyUpdate]
    · simp [applyEvents, applyUpdate]
  · intro hs hc heq
    simp only [newContentOf] at heq
    simp only [finalAfter, processWebsite]
    rw [if_neg (not_or.mpr ⟨hs, hc⟩), if_neg (fun h => h.2 heq)]
    simp [applyEvents, applyUpdate]
  · intro hs hc hne hj
    have hne' : w.lastContent ≠
        extractContentBySelector env.parseF raw (w.selector.getD "") := by
      simpa only [newContentOf] using hne
    have hfin : finalAfter env w ts (Except.ok raw) =
        applyUpdate w { lastChecked := some env.now, status := some WStatus.active } := by
      simp only [finalAfter, processWebsite]
      rw [if_neg (not_or.mpr ⟨hs, hc⟩), if_pos ⟨hc, hne'⟩, hg, hj]
      simp [applyEvents, applyUpdate]
    constructor
    · rw [hfin]
      simp [applyUpdate]
    · rw [hfin]
      have h1 : (applyUpdate w
          { lastChecked := some env.now, status := some WStatus.active }).status
          ≠ WStatus.inactive := by
        simp [applyUpdate]
      have h2 : (applyUpdate w
          { lastChecked := some env.now, status := some WStatus.active }).lastContent
          ≠ "" := by
        simpa [applyUpdate] using hc
      have h3 : (applyUpdate w
          { lastChecked := some env.now, status := some WStatus.active }).lastContent
          ≠ extractContentBySelector env.parseF raw
            ((applyUpdate w { lastChecked := some env.now,
                              status := some WStatus.active }).selector.getD "") := by
        simpa [applyUpdate, newContentOf] using hne
      simp only [processWebsite]
      rw [if_neg (not_or.mpr ⟨h1, h2⟩), if_pos ⟨h2, h3⟩]
      split
      · simp [applyUpdate, newContentOf]
      · simp [applyUpdate, newContentOf]
  · intro hs hc hne hj
    have hne' : w.lastContent ≠
        extractContentBySelector env.parseF raw (w.selector.getD "") := by
      simpa only [newContentOf] using hne
    simp only [finalAfter, newContentOf, processWebsite]
    rw [if_neg (not_or.mpr ⟨hs, hc⟩), if_pos ⟨hc, hne'⟩, hg, hj]
    simp [applyEvents, applyUpdate]

/-- C10 witness: a detected difference that the judgment downgrades (oracle
returns no output) keeps the old snapshot, and the unchanged snapshot is
re-submitted to the judgment on the next check of the same content. -/
theorem processWebsite_snapshot_policy_witness :
    wErrSame.status ≠ WStatus.inactive ∧ wErrSame.lastContent ≠ "" ∧
    wErrSame.lastContent ≠ newContentOf envBig wErrSame "diff" ∧
    judgedChange envBig wErrSame.url wErrSame.lastContent
      (newContentOf envBig wErrSame "diff") = false ∧
    (finalAfter envBig wErrSame tsTok (Except.ok "diff")).lastContent
      = wErrSame.lastContent ∧
    Event.judge wErrSame.url (strTake wErrSame.lastContent 8000)
        (strTake (newContentOf envBig wErrSame "diff") 8000)
      ∈ (processWebsite envBig (finalAfter envBig wErrSame tsTok (Except.ok "diff"))
          tsTok (Except.ok "diff")).events := by
  refine ⟨by decide, by decide, by decide, by decide, ?_, ?_⟩
  · exact ((processWebsite_snapshot_policy envBig wErrSame tsTok "diff").2.2.1
      (by decide) (by decide) (by decide) (by decide)).1
  · exact ((processWebsite_snapshot_policy envBig wErrSame tsTok "diff").2.2.1
      (by decide) (by decide) (by decide) (by decide)).2
